import Mathlib

/-!
Verification of `auto_qc.py` (BCCDC-PHL/analysis-automation): a polling
scheduler that scans a root directory for completed sequencing runs,
filters out already-analyzed runs, classifies the instrument type from
the run ID, and builds a `nextflow` invocation command for each eligible
run.

The embedding below translates the Python source shallowly:

* The filesystem is modelled as explicit data: the root directory is a
  list of entries, each with a name, an entry type (file or directory),
  and its own immediate children (name and type only — the scanner and
  filter inspect nothing deeper than one level of children names).
* Python's `re.match` with the two fixed instrument patterns is embedded
  as an executable token matcher over `List Char`.  `re.match` anchors at
  the start of the string and succeeds on any prefix match; the greedy
  `\d+` in both patterns is immediately followed by a literal `_`, so
  greedy-with-backtracking coincides with maximal munch (a digit run can
  only be followed by `_` at its maximal extent).  `\d` is modelled as the
  ASCII digits `0-9` (Python's `\d` also accepts non-ASCII Unicode
  decimal digits; no run ID in scope uses them).
* `uuid.uuid4()` is a source of entropy: it is modelled as an explicit
  string parameter (the rendered UUID), one per `build_workflow_command`
  call, drawn from a stream `Nat → String` in the flow.
-/

namespace AutoQC

/-- Entry type on disk: `os.DirEntry.is_dir` distinguishes these, while
`os.path.exists` does not. -/
inductive FSType where
  | file : FSType
  | dir : FSType
deriving DecidableEq, Repr

/-- An immediate child of a run directory: only its name and type are
ever consulted by the program (marker checks). -/
structure Entry where
  name : String
  ftype : FSType
deriving DecidableEq, Repr

/-- An immediate child of the root directory (one candidate run
directory): its name (the run ID), its type, and its immediate
children. -/
structure RootEntry where
  name : String
  ftype : FSType
  children : List Entry
deriving DecidableEq, Repr

/-- `os.path.exists(os.path.join(d, n))` for a directory `d` with
children `cs`: bare path existence, satisfied by a child of ANY type
(file or directory) named `n`. -/
def path_exists (cs : List Entry) (n : String) : Bool :=
  cs.any (fun e => e.name == n)

/-! ### The instrument-type patterns

`miseq_regex = '\d{6}_M\d{5}_\d+_\d{9}-[A-Z0-9]{5}'`
`nextseq_regex = '\d{6}_VH\d{5}_\d+_[A-Z0-9]{9}'`, both used via
`re.match` (anchored prefix search). -/

/-- ASCII decimal digit, the `\d` class. -/
def isDig (c : Char) : Bool := 48 ≤ c.toNat && c.toNat ≤ 57

/-- The `[A-Z0-9]` class. -/
def isUpDig (c : Char) : Bool :=
  (65 ≤ c.toNat && c.toNat ≤ 90) || isDig c

/-- One token of a regular expression in the restricted shape the two
instrument patterns use: a literal character, a character class repeated
exactly `n` times, or a greedy one-or-more class repetition. -/
inductive Tok where
  | lit : Char → Tok
  | cls : (Char → Bool) → Nat → Tok
  | plus : (Char → Bool) → Tok

/-- Match one token against the input, returning the unconsumed rest.
`plus` consumes the maximal run (at least one character); in both
instrument patterns `\d+` is followed by a literal `_`, so this maximal
munch coincides with Python's greedy backtracking. -/
def runTok : Tok → List Char → Option (List Char)
  | Tok.lit _, [] => none
  | Tok.lit c, d :: r => if d = c then some r else none
  | Tok.cls _ 0, cs => some cs
  | Tok.cls _ (_ + 1), [] => none
  | Tok.cls p (n + 1), d :: r => if p d then runTok (Tok.cls p n) r else none
  | Tok.plus _, [] => none
  | Tok.plus p, d :: r => if p d then some (r.dropWhile p) else none

/-- Match a token sequence left to right. -/
def runToks : List Tok → List Char → Option (List Char)
  | [], cs => some cs
  | t :: ts, cs => (runTok t cs).bind (runToks ts)

/-- `\d{6}_M\d{5}_\d+_\d{9}-[A-Z0-9]{5}` as a token sequence. -/
def miseq_toks : List Tok :=
  [Tok.cls isDig 6, Tok.lit '_', Tok.lit 'M', Tok.cls isDig 5,
   Tok.lit '_', Tok.plus isDig, Tok.lit '_', Tok.cls isDig 9,
   Tok.lit '-', Tok.cls isUpDig 5]

/-- `\d{6}_VH\d{5}_\d+_[A-Z0-9]{9}` as a token sequence. -/
def nextseq_toks : List Tok :=
  [Tok.cls isDig 6, Tok.lit '_', Tok.lit 'V', Tok.lit 'H',
   Tok.cls isDig 5, Tok.lit '_', Tok.plus isDig, Tok.lit '_',
   Tok.cls isUpDig 9]

/-- `re.match(pattern, s)` is truthy: the pattern matches some prefix of
`s`, anchored at the start; trailing characters are ignored. -/
def re_match_toks (ts : List Tok) (s : String) : Bool :=
  (runToks ts s.data).isSome

/-- `re.match(miseq_regex, run_id)` is truthy. -/
def miseq_match (run_id : String) : Bool := re_match_toks miseq_toks run_id

/-- `re.match(nextseq_regex, run_id)` is truthy. -/
def nextseq_match (run_id : String) : Bool := re_match_toks nextseq_toks run_id

/-- The classification part of `build_workflow_command` (lines 33-39):
`instrument_type` starts as Python `None` (here `Option.none`), becomes
`'miseq'` if the MiSeq pattern matches, else `'nextseq'` if the NextSeq
pattern matches, else stays `None`. -/
def classify (run_id : String) : Option String :=
  if miseq_match run_id then some "miseq"
  else if nextseq_match run_id then some "nextseq"
  else none

example : classify "201203_M00325_0123_000000000-A1B2C" = some "miseq" := by decide
example : classify "201203_VH00123_0045_AB12CD345" = some "nextseq" := by decide
example : classify "randomfolder" = none := by decide

/-! ### Path helpers -/

/-- The glue `os.path.join` puts before a relative second component:
nothing when the first component is empty or already ends with the
separator, otherwise `/`.  (The branch of `os.path.join` for an absolute
second component is omitted: every join in this program uses a fixed
relative name — `RoutineQC`, `upload_complete.json`, `work-<uuid>`.) -/
def joinGlue (a : String) : String :=
  match a.data.reverse with
  | [] => ""
  | c :: _ => if c = '/' then a else a ++ "/"

/-- `os.path.join(a, b)` for a relative `b`. -/
def pjoin (a b : String) : String := joinGlue a ++ b

/-- `os.path.basename`: the final path component, everything after the
last `/` (the whole string when it has no `/`). -/
def basename (p : String) : String :=
  String.mk ((p.data.reverse.takeWhile (fun c => c != '/')).reverse)

example : basename "/data/runA" = "runA" := by decide
example : basename "runA" = "runA" := by decide
example : pjoin "/data/runA" "RoutineQC" = "/data/runA/RoutineQC" := by decide

/-! ### The command builder -/

/-- Python f-string rendering of the `instrument_type` variable:
`str` values render as themselves; `None` renders as the four-character
string `None`. -/
def instrument_type_str : Option String → String
  | some s => s
  | none => "None"

/-- `build_workflow_command(run_dir)` (lines 31-49), with the generated
`uuid.uuid4()` made an explicit parameter `work_dir_uuid` (its rendered
string).  The two f-string literals on lines 46-47 are adjacent string
constants, concatenated with NO separator between them: the first ends
`-r {pipeline_version}` and the second starts `--run_dir`, so the built
command contains `v0.3.2--run_dir`. -/
def build_workflow_command (run_dir : String) (work_dir_uuid : String) : String :=
  let run_id := basename run_dir
  let instrument_type := classify run_id
  let pipeline_name := "BCCDC-PHL/routine-qc"
  let pipeline_version := "v0.3.2"
  let nextflow_base_cmd := "nextflow run"
  let outdir := pjoin run_dir "RoutineQC"
  let work_dir := pjoin run_dir ("work-" ++ work_dir_uuid)
  (nextflow_base_cmd ++ " " ++ pipeline_name ++
      " -profile conda --cache ~/.conda/envs -r " ++ pipeline_version) ++
    ("--run_dir " ++ run_dir ++ " --instrument_type " ++
      instrument_type_str instrument_type ++ " -work " ++ work_dir ++
      " --outdir " ++ outdir)

/-- A prefect `ShellTask` object: `build_workflow_task` constructs one
from a command string and returns it without running it. -/
structure ShellTask where
  command : String
deriving DecidableEq, Repr

/-- `build_workflow_task(cmd)` (lines 55-58): constructs a `ShellTask`
holding the command and returns it; constructing the object does not
execute the command. -/
def build_workflow_task (cmd : String) : ShellTask := ShellTask.mk cmd

/-! ### Scanner, filter and flow -/

/-- The predicate of `list_subdirectories` (lines 25-27, with the
missing closing parenthesis of line 26 restored as evidently intended):
keep `f` when `f.is_dir()` and
`os.path.exists(os.path.join(f, 'upload_complete.json'))`. -/
def completed_run_dir (f : RootEntry) : Bool :=
  f.ftype == FSType.dir && path_exists f.children "upload_complete.json"

/-- `list_subdirectories(parent_dir)` (lines 22-28): scan the immediate
entries of the root and keep the directories that contain the completion
marker.  The source appends `f.path` (the joined path string); here the
kept entries themselves are returned and the path of an entry `f` is
`pjoin parent_dir f.name`.  Only root entries and the names of their
immediate children are consulted: the traversal is one level deep. -/
def list_subdirectories (root : List RootEntry) : List RootEntry :=
  root.filter completed_run_dir

/-- `filter_analyzed_runs`'s `filter_func` (line 52):
`lambda x: not os.path.exists(os.path.join(x, 'RoutineQC'))`.  The
lambda receives the path `x` of an immediate child of the root and
queries the filesystem at `<x>/RoutineQC`; on the modelled filesystem
that is a lookup among the children of the entry at `x`. -/
def not_analyzed (x : RootEntry) : Bool :=
  !(path_exists x.children "RoutineQC")

/-- `filter_analyzed_runs` (line 52): a prefect `FilterTask` keeping the
elements on which `filter_func` is truthy. -/
def filter_analyzed_runs (runs : List RootEntry) : List RootEntry :=
  runs.filter not_analyzed

/-- What one scheduled cycle of the flow computes. -/
structure FlowPassResult where
  candidate_runs : List RootEntry
  eligible_runs : List RootEntry
  built_commands : List String
  dispatched_commands : List String
deriving Repr

/-- One scheduled pass of the flow `build_flow` builds (lines 61-71):
`subdirs = list_subdirectories(parent_dir)`,
`subdirs_to_analyze = filter_analyzed_runs(subdirs)`,
`cmd = build_workflow_command.map(subdirs_to_analyze)` — each mapped
call draws one fresh UUID, modelled by the stream `uuids` indexed by
position.  The flow wires no further task: the mapped result `cmd` is
not passed to `build_workflow_task`, to any `ShellTask`, or to
`show_output`, so the set of commands the pass executes as subprocesses
is empty. -/
def build_flow_pass (parent_dir : String) (root : List RootEntry)
    (uuids : Nat → String) : FlowPassResult :=
  let subdirs := list_subdirectories root
  let subdirs_to_analyze := filter_analyzed_runs subdirs
  let cmd := subdirs_to_analyze.enum.map
    (fun ie => build_workflow_command (pjoin parent_dir ie.2.name) (uuids ie.1))
  { candidate_runs := subdirs
    eligible_runs := subdirs_to_analyze
    built_commands := cmd
    dispatched_commands := [] }

/-! ### Auxiliary executable definitions used by the theorems -/

/-- `leadsWith pat s`: `pat` is an initial segment of `s`. -/
def leadsWith : List Char → List Char → Bool
  | [], _ => true
  | _ :: _, [] => false
  | a :: as, b :: bs => a == b && leadsWith as bs

/-- `hasSub pat s`: `pat` occurs contiguously somewhere in `s`. -/
def hasSub (pat : List Char) : List Char → Bool
  | [] => leadsWith pat []
  | c :: rest => leadsWith pat (c :: rest) || hasSub pat rest

/-- The part of the built command before the generated UUID: every field
except the UUID, written with the same chunks `build_workflow_command`
concatenates. -/
def cmd_uuid_head (run_dir : String) : String :=
  "nextflow run" ++ " " ++ "BCCDC-PHL/routine-qc" ++
    " -profile conda --cache ~/.conda/envs -r " ++ "v0.3.2" ++
    "--run_dir " ++ run_dir ++ " --instrument_type " ++
    instrument_type_str (classify (basename run_dir)) ++ " -work " ++
    joinGlue run_dir ++ "work-"

/-- The part of the built command after the generated UUID. -/
def cmd_uuid_tail (run_dir : String) : String :=
  " --outdir " ++ joinGlue run_dir ++ "RoutineQC"

/-- The part of the built command before the `--instrument_type`
argument. -/
def cmd_ity_head (run_dir : String) : String :=
  "nextflow run" ++ " " ++ "BCCDC-PHL/routine-qc" ++
    " -profile conda --cache ~/.conda/envs -r " ++ "v0.3.2" ++
    "--run_dir " ++ run_dir

/-- The part of the built command after the `--instrument_type` value. -/
def cmd_ity_tail (run_dir u : String) : String :=
  " -work " ++ joinGlue run_dir ++ "work-" ++ u ++
    " --outdir " ++ joinGlue run_dir ++ "RoutineQC"

/-- Token sequences in which every greedy `plus` token is immediately
followed by a literal token (true of both instrument patterns, where
`\d+` is always followed by `_`): for such sequences maximal munch is
stable under extending the input on the right. -/
def plusFollowed : List Tok → Bool
  | [] => true
  | Tok.plus _ :: Tok.lit c :: ts => plusFollowed (Tok.lit c :: ts)
  | Tok.plus _ :: _ => false
  | Tok.lit _ :: ts => plusFollowed ts
  | Tok.cls _ _ :: ts => plusFollowed ts

/-! ## Helper lemmas -/

theorem str_ext {a b : String} (h : a.data = b.data) : a = b := by
  cases a; cases b; exact congrArg String.mk h

theorem runTok_lit_some {c : Char} {cs r : List Char}
    (h : runTok (Tok.lit c) cs = some r) : cs = c :: r := by
  cases cs with
  | nil => simp [runTok] at h
  | cons d rest =>
    by_cases hdc : d = c
    · simp [runTok, hdc] at h
      simp [hdc, h]
    · simp [runTok, hdc] at h

theorem runTok_lit_append {c : Char} {cs r : List Char} (s : List Char)
    (h : runTok (Tok.lit c) cs = some r) :
    runTok (Tok.lit c) (cs ++ s) = some (r ++ s) := by
  rw [runTok_lit_some h]
  simp [runTok]

theorem runTok_cls_append {p : Char → Bool} (s : List Char) :
    ∀ {n : Nat} {cs r : List Char}, runTok (Tok.cls p n) cs = some r →
      runTok (Tok.cls p n) (cs ++ s) = some (r ++ s) := by
  intro n
  induction n with
  | zero =>
    intro cs r h
    simp [runTok] at h ⊢
    simp [h]
  | succ n ih =>
    intro cs r h
    cases cs with
    | nil => simp [runTok] at h
    | cons d rest =>
      by_cases hp : p d
      · simp [runTok, hp] at h ⊢
        exact ih h
      · simp [runTok, hp] at h

theorem runTok_plus_append {p : Char → Bool} {cs r : List Char} {d : Char} (s : List Char)
    (h : runTok (Tok.plus p) cs = some (d :: r)) :
    runTok (Tok.plus p) (cs ++ s) = some (d :: (r ++ s)) := by
  cases cs with
  | nil => simp [runTok] at h
  | cons c rest =>
    by_cases hp : p c
    · simp [runTok, hp] at h ⊢
      rw [List.dropWhile_append, h]
      simp
    · simp [runTok, hp] at h

theorem runToks_append (s : List Char) :
    ∀ {ts : List Tok} {cs r : List Char}, plusFollowed ts = true →
      runToks ts cs = some r → runToks ts (cs ++ s) = some (r ++ s) := by
  intro ts
  induction ts with
  | nil =>
    intro cs r _ h
    simp [runToks] at h ⊢
    simp [h]
  | cons t ts ih =>
    intro cs r hg h
    rw [runToks] at h
    rcases Option.bind_eq_some.mp h with ⟨m, hm, hrest⟩
    rw [runToks]
    cases t with
    | lit c =>
      rw [runTok_lit_append s hm]
      have hg' : plusFollowed ts = true := by simpa [plusFollowed] using hg
      simpa using ih hg' hrest
    | cls p n =>
      rw [runTok_cls_append s hm]
      have hg' : plusFollowed ts = true := by simpa [plusFollowed] using hg
      simpa using ih hg' hrest
    | plus p =>
      cases ts with
      | nil => simp [plusFollowed] at hg
      | cons t2 ts2 =>
        cases t2 with
        | lit c =>
          rw [runToks] at hrest
          rcases Option.bind_eq_some.mp hrest with ⟨m2, hm2, _⟩
          have hcons := runTok_lit_some hm2
          subst hcons
          rw [runTok_plus_append s hm]
          have hg' : plusFollowed (Tok.lit c :: ts2) = true := by
            simpa [plusFollowed] using hg
          simpa using ih hg' hrest
        | cls p2 n2 => simp [plusFollowed] at hg
        | plus p2 => simp [plusFollowed] at hg

theorem re_match_toks_append (ts : List Tok) (hg : plusFollowed ts = true)
    (r s : String) (h : re_match_toks ts r = true) :
    re_match_toks ts (r ++ s) = true := by
  unfold re_match_toks at h ⊢
  rcases Option.isSome_iff_exists.mp h with ⟨rest, hrest⟩
  rw [String.data_append, runToks_append s.data hg hrest]
  rfl

/-- A run ID matching the NextSeq pattern has `V` as its eighth
character, so no right extension of it can match the MiSeq pattern
(which demands `M` there). -/
theorem miseq_match_append_eq_false {r : String} (h : nextseq_match r = true)
    (s : String) : miseq_match (r ++ s) = false := by
  unfold nextseq_match re_match_toks at h
  rcases Option.isSome_iff_exists.mp h with ⟨fin, hfin⟩
  rw [nextseq_toks, runToks] at hfin
  rcases Option.bind_eq_some.mp hfin with ⟨r1, h1, hfin2⟩
  rw [runToks] at hfin2
  rcases Option.bind_eq_some.mp hfin2 with ⟨r2, h2, hfin3⟩
  rw [runToks] at hfin3
  rcases Option.bind_eq_some.mp hfin3 with ⟨r3, h3, _⟩
  have e1 := runTok_lit_some h2
  have e2 := runTok_lit_some h3
  subst e2
  subst e1
  unfold miseq_match re_match_toks
  rw [String.data_append, miseq_toks, runToks, runTok_cls_append s.data h1]
  simp [runToks, runTok]

theorem miseq_nextseq_exclusive (rid : String) :
    (miseq_match rid && nextseq_match rid) = false := by
  cases hn : nextseq_match rid with
  | false => simp
  | true =>
    have hm := miseq_match_append_eq_false hn ""
    rw [String.append_empty] at hm
    simp [hm]

/-- Classification is stable under right extension of the run ID. -/
theorem classify_append {r s t : String} (h : classify r = some t) :
    classify (r ++ s) = some t := by
  by_cases hm : miseq_match r = true
  · have hm2 : miseq_match (r ++ s) = true :=
      re_match_toks_append miseq_toks rfl r s hm
    simp [classify, hm] at h
    simp [classify, hm2, h]
  · by_cases hn : nextseq_match r = true
    · have hn2 : nextseq_match (r ++ s) = true :=
        re_match_toks_append nextseq_toks rfl r s hn
      have hm2 : miseq_match (r ++ s) = false := miseq_match_append_eq_false hn s
      simp [classify, hm, hn] at h
      simp [classify, hm2, hn2, h]
    · simp [classify, hm, hn] at h

/-! ## Claim theorems -/

/-- C5: the classifier (the `instrument_type` computation of
`build_workflow_command`) is a deterministic total Lean function from
run-ID strings to exactly three values — `some "miseq"`, `some
"nextseq"`, and `none` (the source's Python `None`, the code's
representation of the unclassified/`unknown` outcome); the two patterns
are mutually exclusive, and the three spec examples classify as MiSeq,
NextSeq and unclassified respectively. -/
theorem C5_classifier_total_deterministic (rid : String) :
    (classify rid = some "miseq" ∨ classify rid = some "nextseq" ∨ classify rid = none) ∧
    (miseq_match rid && nextseq_match rid) = false ∧
    classify "201203_M00325_0123_000000000-A1B2C" = some "miseq" ∧
    classify "201203_VH00123_0045_AB12CD345" = some "nextseq" ∧
    classify "randomfolder" = none := by
  refine ⟨?_, miseq_nextseq_exclusive rid, by decide, by decide, by decide⟩
  unfold classify
  split
  · exact Or.inl rfl
  · split
    · exact Or.inr (Or.inl rfl)
    · exact Or.inr (Or.inr rfl)

/-- C6: pattern matching is anchored at the start of the run ID only:
appending any suffix to a classified run ID never changes its
classification, and a pattern occurring only in the middle of the
string (here after a leading `X`) does not match. -/
theorem C6_anchored_matching :
    (∀ r s t : String, classify r = some t → classify (r ++ s) = some t) ∧
    classify "X201203_M00325_0123_000000000-A1B2C" = none :=
  ⟨fun _ _ _ h => classify_append h, by decide⟩

/-- Witness for C6: the MiSeq example keeps classifying as `miseq`
after appending `_XY`. -/
theorem C6_anchored_matching_witness :
    classify ("201203_M00325_0123_000000000-A1B2C" ++ "_XY") = some "miseq" :=
  C6_anchored_matching.1 "201203_M00325_0123_000000000-A1B2C" "_XY" "miseq" (by decide)

set_option maxRecDepth 16000 in
/-- C2 fails as stated: `/data/randomfolder` matches neither pattern,
yet the built command does not contain `--instrument_type unknown`
anywhere — the unclassified result is rendered as Python `None`. -/
theorem C2_counterexample :
    classify (basename "/data/randomfolder") = none ∧
    hasSub ("--instrument_type unknown".data)
      ((build_workflow_command "/data/randomfolder" "u1").data) = false := by
  constructor
  · decide
  · decide

/-- C2 amended: for a run directory whose run ID matches neither
pattern, the built command carries the literal argument
`--instrument_type None` (Python's rendering of the unset
`instrument_type = None`), not `--instrument_type unknown`: the command
splits around it, with the head ending at the run-directory path and
the tail starting with ` -work `. -/
theorem C2_instrument_none (run_dir u : String)
    (h : classify (basename run_dir) = none) :
    build_workflow_command run_dir u =
      cmd_ity_head run_dir ++ " --instrument_type " ++ "None" ++ cmd_ity_tail run_dir u := by
  apply str_ext
  simp [build_workflow_command, cmd_ity_head, cmd_ity_tail, pjoin, h,
    instrument_type_str, String.data_append, List.append_assoc]

/-- Witness for C2 amended, at `/data/randomfolder`. -/
theorem C2_instrument_none_witness :
    build_workflow_command "/data/randomfolder" "u1" =
      cmd_ity_head "/data/randomfolder" ++ " --instrument_type " ++ "None" ++
        cmd_ity_tail "/data/randomfolder" "u1" :=
  C2_instrument_none "/data/randomfolder" "u1" (by decide)

set_option maxRecDepth 16000 in
/-- C3 fails on the code: the two f-string literals of lines 46-47 are
concatenated with no separator, so the built command reads
`-r v0.3.2--run_dir <run_dir>` — the pipeline-version argument and the
`--run_dir` flag are fused into one token.  The command for
`/data/runA` with UUID `u123` is computed in full, and the
whitespace-separated form `-r v0.3.2 --run_dir` appears nowhere in
it. -/
theorem C3_missing_separator :
    build_workflow_command "/data/runA" "u123" =
      "nextflow run BCCDC-PHL/routine-qc -profile conda --cache ~/.conda/envs -r v0.3.2--run_dir /data/runA --instrument_type None -work /data/runA/work-u123 --outdir /data/runA/RoutineQC" ∧
    hasSub ("-r v0.3.2 --run_dir".data)
      ((build_workflow_command "/data/runA" "u123").data) = false ∧
    hasSub ("v0.3.2--run_dir".data)
      ((build_workflow_command "/data/runA" "u123").data) = true := by
  refine ⟨by decide, by decide, by decide⟩

/-- C8: two calls of the command builder on the same run directory
differ only in the UUID: each call's command is the fixed head (every
field before the UUID, a function of the run directory alone) followed
by that call's UUID followed by the fixed tail; the work directory has
the form `<run_dir>/work-<uuid>`; and distinct UUIDs give distinct work
directories.  (`uuid.uuid4()` is modelled as the explicit per-call
parameter; the source draws a fresh random UUID on every call.) -/
theorem C8_uuid_only_difference (run_dir u1 u2 : String) :
    build_workflow_command run_dir u1 =
      cmd_uuid_head run_dir ++ u1 ++ cmd_uuid_tail run_dir ∧
    build_workflow_command run_dir u2 =
      cmd_uuid_head run_dir ++ u2 ++ cmd_uuid_tail run_dir ∧
    pjoin run_dir ("work-" ++ u1) = joinGlue run_dir ++ "work-" ++ u1 ∧
    (u1 ≠ u2 → pjoin run_dir ("work-" ++ u1) ≠ pjoin run_dir ("work-" ++ u2)) := by
  refine ⟨?_, ?_, ?_, ?_⟩
  · apply str_ext
    simp [build_workflow_command, cmd_uuid_head, cmd_uuid_tail, pjoin,
      String.data_append, List.append_assoc]
  · apply str_ext
    simp [build_workflow_command, cmd_uuid_head, cmd_uuid_tail, pjoin,
      String.data_append, List.append_assoc]
  · apply str_ext
    simp [pjoin, String.data_append, List.append_assoc]
  · intro hne heq
    apply hne
    have h2 : (joinGlue run_dir).data ++ ("work-" ++ u1).data =
        (joinGlue run_dir).data ++ ("work-" ++ u2).data := by
      have h0 := congrArg String.data heq
      simpa [pjoin, String.data_append] using h0
    have h3 := List.append_cancel_left h2
    have h4 : "work-".data ++ u1.data = "work-".data ++ u2.data := by
      simpa [String.data_append] using h3
    exact str_ext (List.append_cancel_left h4)

/-- Witness for C8, at `/data/runA` with UUIDs `aaa` and `bbb`. -/
theorem C8_uuid_only_difference_witness :
    build_workflow_command "/data/runA" "aaa" =
      cmd_uuid_head "/data/runA" ++ "aaa" ++ cmd_uuid_tail "/data/runA" ∧
    pjoin "/data/runA" ("work-" ++ "aaa") ≠ pjoin "/data/runA" ("work-" ++ "bbb") :=
  ⟨(C8_uuid_only_difference "/data/runA" "aaa" "bbb").1,
   (C8_uuid_only_difference "/data/runA" "aaa" "bbb").2.2.2 (by decide)⟩

/-- C7: the scanner keeps exactly the immediate children of the root
that are directories and contain the completion marker
`upload_complete.json`: an entry is in its output iff it is a root
entry, is a directory (non-directory entries are excluded), and has a
child named `upload_complete.json`.  The scanner consults only root
entries and the names of their immediate children, so traversal is one
level deep. -/
theorem C7_scanner_exact (root : List RootEntry) (e : RootEntry) :
    e ∈ list_subdirectories root ↔
      e ∈ root ∧ e.ftype = FSType.dir ∧
        path_exists e.children "upload_complete.json" = true := by
  simp [list_subdirectories, List.mem_filter, completed_run_dir, and_assoc]

/-- C1: no pass ever builds a command for a run directory that lacks
the completion marker or bears the analysis marker: such an entry is
excluded from the eligible set, and the pass's built commands are
exactly the commands of the eligible entries. -/
theorem C1_marker_gate (parent_dir : String) (root : List RootEntry)
    (uuids : Nat → String) (e : RootEntry)
    (h : path_exists e.children "upload_complete.json" = false ∨
         path_exists e.children "RoutineQC" = true) :
    e ∉ (build_flow_pass parent_dir root uuids).eligible_runs ∧
    (build_flow_pass parent_dir root uuids).built_commands =
      ((build_flow_pass parent_dir root uuids).eligible_runs).enum.map
        (fun ie => build_workflow_command (pjoin parent_dir ie.2.name) (uuids ie.1)) := by
  refine ⟨?_, rfl⟩
  intro hmem
  rcases h with h | h <;>
    simp [build_flow_pass, filter_analyzed_runs, list_subdirectories,
      List.mem_filter, not_analyzed, completed_run_dir, h] at hmem

/-- Witness for C1: a run directory with no completion marker is never
in the eligible set. -/
theorem C1_marker_gate_witness :
    RootEntry.mk "runB" FSType.dir [] ∉
      (build_flow_pass "/data" [RootEntry.mk "runB" FSType.dir []]
        (fun _ => "u")).eligible_runs :=
  (C1_marker_gate "/data" [RootEntry.mk "runB" FSType.dir []] (fun _ => "u")
    (RootEntry.mk "runB" FSType.dir []) (Or.inl (by decide))).1

/-- C9: the eligible-run set (and the candidate set) of a pass is
re-derived purely from the filesystem markers: it is a function of the
root directory contents alone, independent of the per-pass entropy
stream (the only other input a cycle consumes), so two passes over an
unchanged filesystem yield the same eligible-run set. -/
theorem C9_pass_idempotent (parent_dir : String) (root : List RootEntry)
    (us1 us2 : Nat → String) :
    (build_flow_pass parent_dir root us1).eligible_runs =
      (build_flow_pass parent_dir root us2).eligible_runs ∧
    (build_flow_pass parent_dir root us1).candidate_runs =
      (build_flow_pass parent_dir root us2).candidate_runs :=
  ⟨rfl, rfl⟩

set_option maxRecDepth 16000 in
/-- C4 fails on the code: a cycle over a root with one eligible run
builds exactly the one command but dispatches nothing — the flow never
hands `cmd` to any shell-execution task (neither `build_workflow_task`
nor `show_output` is wired into the flow), and `build_workflow_task`
itself only constructs a `ShellTask` object without running it. -/
theorem C4_built_but_never_dispatched :
    (build_flow_pass "/data"
        [RootEntry.mk "runA" FSType.dir [Entry.mk "upload_complete.json" FSType.file]]
        (fun _ => "u1")).built_commands =
      [build_workflow_command "/data/runA" "u1"] ∧
    (build_flow_pass "/data"
        [RootEntry.mk "runA" FSType.dir [Entry.mk "upload_complete.json" FSType.file]]
        (fun _ => "u1")).dispatched_commands = [] ∧
    build_workflow_task (build_workflow_command "/data/runA" "u1") =
      ShellTask.mk (build_workflow_command "/data/runA" "u1") := by
  refine ⟨by decide, rfl, rfl⟩

/-- C10: both marker checks are bare `os.path.exists` tests, blind to
the entry type: a child named `RoutineQC` of ANY type `t` (regular file
included) makes the filter exclude the run, and a child named
`upload_complete.json` of ANY type `t` (directory included) makes the
scanner's predicate accept the run directory. -/
theorem C10_markers_bare_existence (n : String) (ft : FSType) (t : FSType)
    (pre post : List Entry) :
    not_analyzed (RootEntry.mk n ft (pre ++ Entry.mk "RoutineQC" t :: post)) = false ∧
    (∀ runs : List RootEntry,
      RootEntry.mk n ft (pre ++ Entry.mk "RoutineQC" t :: post) ∉
        filter_analyzed_runs runs) ∧
    completed_run_dir
      (RootEntry.mk n FSType.dir
        (pre ++ Entry.mk "upload_complete.json" t :: post)) = true := by
  have h1 : not_analyzed (RootEntry.mk n ft (pre ++ Entry.mk "RoutineQC" t :: post)) = false := by
    simp [not_analyzed, path_exists]
  refine ⟨h1, ?_, ?_⟩
  · intro runs hmem
    have h2 := (List.mem_filter.mp hmem).2
    rw [h1] at h2
    exact Bool.false_ne_true h2
  · simp [completed_run_dir, path_exists]

/-- Witness for C10: concrete instances — a regular file `RoutineQC`
excludes a run from the filter, and a directory `upload_complete.json`
satisfies the scanner's predicate. -/
theorem C10_markers_bare_existence_witness :
    not_analyzed (RootEntry.mk "runX" FSType.dir
      ([] ++ Entry.mk "RoutineQC" FSType.file :: [])) = false ∧
    completed_run_dir (RootEntry.mk "runY" FSType.dir
      ([] ++ Entry.mk "upload_complete.json" FSType.dir :: [])) = true :=
  ⟨(C10_markers_bare_existence "runX" FSType.dir FSType.file [] []).1,
   (C10_markers_bare_existence "runY" FSType.dir FSType.dir [] []).2.2⟩

end AutoQC
